import Mathlib

/-!
Shallow embedding of the AuthProxy SDK client (TypeScript) and proofs about
its authentication handshake, enrollment flow, session guard and event channel.

The repository contains two in-tree variants of `AuthProxyClient`:
* variant 1 (src/unnamed/part_000, lines 109-508): fields `userKey`,
  `isConnected`, `isConnectedES`, `sessionId`, `deviceGuid`; its `ApiRequest`
  contains the retry-on-401 logic.
* variant 2 (src/unnamed/part_000, lines 524-841): no `userKey`/`isConnected`
  fields; its `ApiRequest` has no 401 handling and `Subscribe` never sets
  `isConnectedES`.

External collaborators (the `elliptic` EdDSA library, `JSON.parse`, the
entropy sources `getRandomText`/`crypto.randomUUID`, the digest `genSha256`)
are modelled as explicit functional parameters; the network is modelled as an
oracle giving the outcome of each fetch.
-/

namespace AuthProxy

/-- The `{code, message}` error object; `validationErrorResponse` sets `code`,
transport errors set only `message` (part_000 lines 374-382, 829-838). -/
structure ErrorObject where
  code : Option Int
  message : String
deriving DecidableEq

/-- The `ApiResponse`/`ApiResponseExt` shape `{result, error, headers}`.
A missing (`undefined`) or `null` field is `none`. Headers are the
association list collected from `response.headers.forEach`. -/
structure ApiResp (T : Type) where
  result : Option T := none
  error : Option ErrorObject := none
  headers : Option (List (String × String)) := none
deriving DecidableEq

/-- The fields of the server's `AuthOptions` bundle that the client reads:
`challenge` and `challenge_id` (login), and the nested
`fido2_options.challenge` (registration). -/
structure AuthOptions where
  challenge : String
  challenge_id : String
  fido2_challenge : String
deriving DecidableEq

/-- Parsed JSON body of a fetch response, before the client merges in the
collected headers: `{result, error}`. -/
structure RawBody (T : Type) where
  result : Option T := none
  error : Option ErrorObject := none
deriving DecidableEq

/-- Result of awaiting `response.json()`: the parsed body, or the message of
the rejection when the body is not valid JSON. -/
inductive BodyResult (T : Type) where
  | parsed (b : RawBody T)
  | jsonError (msg : String)
deriving DecidableEq

/-- Outcome of one actual HTTP fetch: either a response (status, statusText,
headers, and the result of reading its body) or a transport failure (the
fetch promise rejects). -/
inductive FetchOutcome (T : Type) where
  | response (status : Nat) (statusText : String)
      (headers : List (String × String)) (body : BodyResult T)
  | netError (msg : String)
deriving DecidableEq

/-- Predicate `Response.ok`: status in the inclusive range 200-299. -/
def statusOk (status : Nat) : Bool := 200 ≤ status && status ≤ 299

/-- Whitespace as stripped by JavaScript's `String.prototype.trim` (the
ASCII white-space and line-terminator characters; the exotic Unicode space
code points are omitted, as no claim involves them). -/
def isJsSpace (c : Char) : Bool :=
  c = ' ' || c = '\t' || c = '\n' || c = '\r' || c = '\x0b' || c = '\x0c'

/-- JavaScript `str.trim()`: strip leading and trailing whitespace. -/
def jsTrim (s : String) : String :=
  String.mk (((s.data.dropWhile isJsSpace).reverse.dropWhile isJsSpace).reverse)

/-- JavaScript truthiness of a nullable string: `null`/`undefined` and the
empty string are falsy (`if (response.result && ...)`). -/
def strTruthy : Option String → Bool
  | none => false
  | some s => s != ""

/-- Helper `validationErrorResponse` (part_000 lines 374-382 and 765-773):
`{result: null, error: {code: -1, message}}`. -/
def validationErrorResponse (T : Type) (message : String) : ApiResp T :=
  { result := none, error := some { code := some (-1), message := message }, headers := none }

/-- Variant 2 `ApiRequest` (part_000 lines 801-841): on a 2xx response merge
the parsed body with the collected headers; on a non-2xx response return a
status error with the (still empty) local `headers` object; on a rejected
promise (transport error or `response.json()` failure) return the message
with `headers: null`. -/
def ApiRequest2 {T : Type} (net : FetchOutcome T) : ApiResp T :=
  match net with
  | .netError msg =>
      { result := none, error := some { code := none, message := msg }, headers := none }
  | .response status statusText hdrs body =>
      if statusOk status then
        match body with
        | .parsed b => { result := b.result, error := b.error, headers := some hdrs }
        | .jsonError m =>
            { result := none, error := some { code := none, message := m }, headers := none }
      else
        { result := none,
          error := some { code := none,
                          message := "Status: " ++ toString status ++ ". " ++ statusText },
          headers := some [] }

/-! ### The regex `sid=([^;]+)` applied by `.match` to the Set-Cookie header -/

/-- Try to match `sid=([^;]+)` anchored at the head of the character list;
the capture group is the maximal non-empty run of non-`;` characters. -/
def matchSidAt (cs : List Char) : Option String :=
  match cs with
  | 's' :: 'i' :: 'd' :: '=' :: rest =>
      let cap := rest.takeWhile (fun c => c != ';')
      if cap.isEmpty then none else some (String.mk cap)
  | _ => none

/-- Scan left to right for the first position where `sid=([^;]+)` matches,
as the JS regex engine does, returning the first capture group. -/
def sidMatchAux : List Char → Option String
  | [] => none
  | c :: rest =>
      match matchSidAt (c :: rest) with
      | some s => some s
      | none => sidMatchAux rest

/-- Evaluation of `header.match(/sid=([^;]+)/)` followed by `[1]`: the first capture of the
first match, or `none` when `.match` returns `null`. -/
def sidMatch (s : String) : Option String := sidMatchAux s.data

/-! ### base64 decoding (src/SDK/JavaScript/src/utils/base64ToUint8Array.ts) -/

/-- Value of a character in the standard base64 alphabet (after the source
has replaced `-`→`+` and `_`→`/`); `none` for characters Node's lenient
decoder skips (including `=` padding). -/
def b64Val (c : Char) : Option Nat :=
  if 'A' ≤ c && c ≤ 'Z' then some (c.toNat - 'A'.toNat)
  else if 'a' ≤ c && c ≤ 'z' then some (c.toNat - 'a'.toNat + 26)
  else if '0' ≤ c && c ≤ '9' then some (c.toNat - '0'.toNat + 52)
  else if c = '+' then some 62
  else if c = '/' then some 63
  else none

/-- Reassemble 6-bit groups into bytes (4 groups → 3 bytes; trailing 2 or 3
groups → 1 or 2 bytes). -/
def decodeQuads : List Nat → List Nat
  | a :: b :: c :: d :: rest =>
      (a * 4 + b / 16) :: (b % 16 * 16 + c / 4) :: (c % 4 * 64 + d) :: decodeQuads rest
  | [a, b] => [a * 4 + b / 16]
  | [a, b, c] => [a * 4 + b / 16, b % 16 * 16 + c / 4]
  | _ => []

/-- Function `base64ToUint8Array`: undo the base64url substitutions, then decode as
lenient base64 into a byte list. -/
def base64ToUint8Array (s : String) : List Nat :=
  let replaced := s.data.map (fun c => if c = '-' then '+' else if c = '_' then '/' else c)
  decodeQuads (replaced.filterMap b64Val)

/-! ### Key derivation (src/unnamed/part_001: helpers/generateKeys.ts) -/

/-- The EdDSA ("ed25519") interface of the `elliptic` library as used by
`generateKeys`: all three operations are plain functions of their arguments —
the library API consumed here takes no entropy source. `K` is the library's
key-pair type. -/
structure Eddsa (K : Type) where
  keyFromSecret : String → K
  getPublic : K → List Nat
  sign : K → List Nat → List Nat

/-- Modelled from the spec: `coerceToBase64Url` is imported by
`helpers/generateKeys.ts` from `../utils/coerceToBase64Url`, a file not in
the provided sources. Spec §4.1: base64url encoding — no padding, `+`→`-`,
`/`→`_`. Encoded directly with the base64url alphabet. -/
def base64UrlAlphabet : List Char :=
  "ABCDEFGHIJKLMNOPQRSTUVWXYZabcdefghijklmnopqrstuvwxyz0123456789-_".data

/-- Character for a 6-bit value in the base64url alphabet. -/
def b64UrlChar (n : Nat) : Char := base64UrlAlphabet.getD n 'A'

/-- Modelled from the spec: base64url-encode a byte list, no padding. -/
def coerceToBase64UrlChars : List Nat → List Char
  | [] => []
  | [b1] => [b64UrlChar (b1 / 4 % 64), b64UrlChar (b1 % 4 * 16)]
  | [b1, b2] =>
      [b64UrlChar (b1 / 4 % 64), b64UrlChar (b1 % 4 * 16 + b2 / 16), b64UrlChar (b2 % 16 * 4)]
  | b1 :: b2 :: b3 :: rest =>
      b64UrlChar (b1 / 4 % 64) :: b64UrlChar (b1 % 4 * 16 + b2 / 16) ::
      b64UrlChar (b2 % 16 * 4 + b3 / 64) :: b64UrlChar (b3 % 64) :: coerceToBase64UrlChars rest

/-- Modelled from the spec: `coerceToBase64Url` as a string-producing function. -/
def coerceToBase64Url (bs : List Nat) : String := String.mk (coerceToBase64UrlChars bs)

/-- The `{signature, public_key}` pair returned by `generateKeys`. -/
structure KeysOut where
  signature : String
  public_key : String
deriving DecidableEq

/-- Function `generateKeys` (part_001 lines 6-15): derive the key pair from the
secret, compute the public key, sign the challenge, base64url-encode both.
No entropy parameter appears anywhere: the function is a composition of the
pure library operations. -/
def generateKeys {K : Type} (ec : Eddsa K) (passKey : String) (challengeBuf : List Nat) :
    KeysOut :=
  let key := ec.keyFromSecret passKey
  let public_key := ec.getPublic key
  let signature := ec.sign key challengeBuf
  { signature := coerceToBase64Url signature, public_key := coerceToBase64Url public_key }

/-! ### Variant 2 client state (part_000 lines 524-531) and its operations -/

/-- A JavaScript runtime exception escaping a method (e.g. `TypeError` from a
property access on `null`/`undefined`). -/
inductive JsError where
  | typeError (msg : String)
  | syntaxError (msg : String)
deriving DecidableEq

/-- What a JS async method delivers: a value, or an uncaught exception
rejecting the promise. -/
inductive JsResult (T : Type) where
  | ok (v : T)
  | thrown (e : JsError)
deriving DecidableEq

/-- Mutable fields of the variant 2 `AuthProxyClient` (part_000 lines
524-531): `esLink` (the EventSource handle, as an opaque id), the
`isConnectedES` flag — initialised `false` at line 528 — `sessionId` and
`deviceGuid`. -/
structure ClientState2 where
  esLink : Option Nat := none
  isConnectedES : Bool := false
  sessionId : Option String := none
  deviceGuid : Option String := none
deriving DecidableEq

/-- A freshly constructed variant 2 client (all fields at their declared
initial values). -/
def initState2 : ClientState2 := {}

/-- Network oracle for one `SignInUserKey` run: the outcomes of the
`auth/v1/login_options` GET and of the `auth/v1/login` POST, should they be
issued. -/
structure SignInNet where
  loginOptions : FetchOutcome AuthOptions
  login : FetchOutcome String

/-- Result of a `SignInUserKey` run: the value it returns (or the exception
it throws), the client state after the run, and the endpoints actually
fetched, in order. -/
structure SignInOutcome where
  response : JsResult (ApiResp String)
  state : ClientState2
  calls : List String
deriving DecidableEq

/-- Variant 2 `SignInUserKey` (part_000 lines 549-599).
`freshGuid` stands for the `crypto.randomUUID()` value that `getDeviceGuid`
(lines 775-781) would mint if no device guid is cached yet; `ec` is the
EdDSA library. Steps: trim-validation; fetch login options; on a missing
result return `{result: null, error}`; decode the challenge and derive the
keys; fetch login (caching the device guid while building its headers); on a
truthy non-"Failure" result extract `sid=` from the `set-cookie` header
(throwing a `TypeError` exactly where the JS property accesses would throw)
and store it; return the login response. -/
def SignInUserKey2 {K : Type} (ec : Eddsa K) (net : SignInNet) (freshGuid : String)
    (userKey : String) (st : ClientState2) : SignInOutcome :=
  if jsTrim userKey = "" then
    { response := .ok (validationErrorResponse String "User key must be not empty"),
      state := st, calls := [] }
  else
    let loginOptionResponse := ApiRequest2 net.loginOptions
    match loginOptionResponse.result with
    | none =>
        { response := .ok { result := none, error := loginOptionResponse.error, headers := none },
          state := st, calls := ["auth/v1/login_options"] }
    | some authOptions =>
        let challengeBuf := base64ToUint8Array authOptions.challenge
        let _keys := generateKeys ec userKey challengeBuf
        let st' : ClientState2 := { st with deviceGuid := some (st.deviceGuid.getD freshGuid) }
        let loginResponse := ApiRequest2 net.login
        let calls := ["auth/v1/login_options", "auth/v1/login"]
        if strTruthy loginResponse.result && loginResponse.result != some "Failure" then
          match loginResponse.headers with
          | none =>
              { response := .thrown (.typeError "Cannot read properties of null"),
                state := st', calls := calls }
          | some hs =>
              match List.lookup "set-cookie" hs with
              | none =>
                  { response := .thrown (.typeError "Cannot read properties of undefined"),
                    state := st', calls := calls }
              | some headerValue =>
                  match sidMatch headerValue with
                  | none =>
                      { response := .thrown (.typeError "Cannot read properties of null"),
                        state := st', calls := calls }
                  | some sid =>
                      { response := .ok loginResponse,
                        state := { st' with sessionId := some sid }, calls := calls }
        else
          { response := .ok loginResponse, state := st', calls := calls }

/-- Result of a `CreateUserKey` run: the returned value and the endpoints
fetched. `CreateUserKey` does not touch the client state. -/
structure CreateKeyOutcome where
  response : ApiResp String
  calls : List String
deriving DecidableEq

/-- Variant 2 `CreateUserKey` (part_000 lines 666-700). `randomText` stands
for the `getRandomText()` entropy value and `sha256` for `genSha256`; the
minted pass key is `sha256 randomText`. Validation: rejected iff the trimmed
otp is empty AND its length is not 6 (the source's `&&`). On a truthy
non-"Failure" register result return `{result: passKey, error: null}`, else
return the response unchanged. -/
def CreateUserKey2 {K : Type} (ec : Eddsa K) (sha256 : String → String) (randomText : String)
    (net : FetchOutcome String) (otp : String) (options : AuthOptions) : CreateKeyOutcome :=
  if jsTrim otp = "" ∧ otp.length ≠ 6 then
    { response := validationErrorResponse String "OTP must be not empty", calls := [] }
  else
    let challengeBuf := base64ToUint8Array options.fido2_challenge
    let passKey := sha256 randomText
    let _keys := generateKeys ec passKey challengeBuf
    let response := ApiRequest2 net
    if strTruthy response.result && response.result != some "Failure" then
      { response := { result := some passKey, error := none, headers := none },
        calls := ["auth/v1/register_key"] }
    else
      { response := response, calls := ["auth/v1/register_key"] }

/-- Result of a `Subscribe` call: the returned boolean, the state after the
call, and whether an EventSource connection was actually constructed. -/
structure SubscribeOutcome (σ : Type) where
  ok : Bool
  state : σ
  opened : Bool
deriving DecidableEq

/-- Variant 2 `Subscribe` (part_000 lines 707-738). `mkES` is the outcome of
`new EventSource(...)` (an opaque handle, or the exception the constructor
throws). Guard: refuse when `isConnectedES` is set or no session is active.
On success store the handle and return `true`; note that this variant never
sets `isConnectedES`. -/
def Subscribe2 (mkES : Except String Nat) (st : ClientState2) : SubscribeOutcome ClientState2 :=
  if st.isConnectedES || st.sessionId.isNone then
    { ok := false, state := st, opened := false }
  else
    match mkES with
    | .error _ => { ok := false, state := st, opened := false }
    | .ok h => { ok := true, state := { st with esLink := some h }, opened := true }

/-- Variant 2 `Unsubscribe` (part_000 lines 745-753): return `false` unless
`isConnectedES` is set; otherwise close the link and return `true` (this
variant does not even reset the flag). -/
def Unsubscribe2 (st : ClientState2) : Bool × ClientState2 :=
  if !st.isConnectedES then (false, st) else (true, st)

/-! ### Variant 1 client (part_000 lines 109-508) -/

/-- Mutable fields of the variant 1 `AuthProxyClient` (part_000 lines
110-117): the constructor-supplied `userKey`, the EventSource handle, the
`isConnected` and `isConnectedES` flags, `sessionId` and `deviceGuid`. -/
structure ClientState1 where
  userKey : String
  esLink : Option Nat := none
  isConnected : Bool := false
  isConnectedES : Bool := false
  sessionId : Option String := none
  deviceGuid : Option String := none
deriving DecidableEq

/-- Result of one variant 1 `ApiRequest` run: the returned value, how many
times the HTTP request was actually issued over the wire, how many
`Connect(true)` re-authentication attempts were fired, and the resulting
`isConnected` flag. -/
structure ApiRequest1Outcome (T : Type) where
  response : ApiResp T
  fetchCount : Nat
  reauthAttempts : Nat
  isConnected : Bool
deriving DecidableEq

/-- Variant 1 `ApiRequest` (part_000 lines 458-507). The source stores the
fetch promise (`const request = fetch(...)`) and awaits it; on a 401 it sets
`isConnected = false`, fires `this.Connect(true)` WITHOUT awaiting it, and
then executes `response = await request` — awaiting the SAME, already
settled promise, which yields the same `Response` object without issuing a
new HTTP request. The 401 response then falls into the non-ok branch. The
model makes this visible: `fetchCount` is the number of requests actually
sent (always 1: the single `fetch` call), and `reauthAttempts` counts the
`Connect(true)` invocations fired (1 on a 401, else 0). -/
def ApiRequest1 {T : Type} (net : FetchOutcome T) (isConnected : Bool) :
    ApiRequest1Outcome T :=
  match net with
  | .netError msg =>
      { response := { result := none, error := some { code := none, message := msg },
                      headers := none },
        fetchCount := 1, reauthAttempts := 0, isConnected := isConnected }
  | .response status statusText hdrs body =>
      let connected := if status = 401 then false else isConnected
      let attempts := if status = 401 then 1 else 0
      if statusOk status then
        match body with
        | .parsed b =>
            { response := { result := b.result, error := b.error, headers := some hdrs },
              fetchCount := 1, reauthAttempts := attempts, isConnected := connected }
        | .jsonError m =>
            { response := { result := none, error := some { code := none, message := m },
                            headers := none },
              fetchCount := 1, reauthAttempts := attempts, isConnected := connected }
      else
        { response := { result := none,
                        error := some { code := none,
                                        message := "Status: " ++ toString status ++ ". " ++
                                          statusText },
                        headers := some [] },
          fetchCount := 1, reauthAttempts := attempts, isConnected := connected }

/-- Variant 1 `Subscribe` (part_000 lines 313-346): refuse (returning
`false`, constructing nothing) when `isConnectedES` is already set or no
session is active; otherwise construct the EventSource (the `try` block:
a constructor throw is caught and yields `false`), install the handlers,
set `isConnectedES = true` and return `true`. -/
def Subscribe1 (mkES : Except String Nat) (st : ClientState1) : SubscribeOutcome ClientState1 :=
  if st.isConnectedES || st.sessionId.isNone then
    { ok := false, state := st, opened := false }
  else
    match mkES with
    | .error _ => { ok := false, state := st, opened := false }
    | .ok h =>
        { ok := true, state := { st with esLink := some h, isConnectedES := true },
          opened := true }

/-! ### EventChannel message decoding (part_000 lines 440-456 and 783-799) -/

/-- JavaScript values as seen by the event channel: the payload of a push
message and what `getMessageFromEvent` hands to the consumer callback. -/
inductive JsVal where
  | vUndefined
  | vNull
  | vBool (b : Bool)
  | vNum (n : Int)
  | vStr (s : String)
  | vArr (elems : List String)
deriving DecidableEq

/-- Method `getMessageFromEvent` (identical at part_000 lines 440-456 and 783-799),
parameterised by the external `JSON.parse` (`parse` returns the decoded
value, or the message of the exception it throws). `let jsonValue = null`;
a non-string payload is logged and the method returns `undefined`; a parse
failure is caught and logged, leaving `jsonValue` at `null`; otherwise the
decoded value is returned. The consumer callback receives exactly this
return value. -/
def getMessageFromEvent (parse : String → JsResult JsVal) (message : JsVal) : JsVal :=
  match message with
  | .vStr s =>
      match parse s with
      | .ok v => v
      | .thrown _ => .vNull
  | _ => .vUndefined

/-! ### Variant 2 client: operations as a state machine (claim C10) -/

/-- The operations of the variant 2 client, each carrying the oracle values
(network outcomes, entropy, construction results) its run consumes.
Operations that only read state (`GetInfo`, `GetLoginLog`, `Logout`,
the key-initialisation step, `CreateUserKey`) never write any field;
`ResetPassword` may cache a device guid via `getDeviceGuid` when its phone
validation (`formatAsNumber`, external) passes. -/
inductive Op2 where
  | signIn (net : SignInNet) (freshGuid : String) (userKey : String)
  | subscribe (mkES : Except String Nat)
  | unsubscribe
  | createKey (net : FetchOutcome String) (randomText : String) (otp : String)
      (options : AuthOptions)
  | resetPassword (phoneOk : Bool) (freshGuid : String)
  | initNewKey
  | getInfo
  | getLoginLog
  | logout

/-- State effect of one variant 2 operation, for a fixed EdDSA library and
digest function. -/
def step2 {K : Type} (ec : Eddsa K) (sha256 : String → String) (op : Op2)
    (st : ClientState2) : ClientState2 :=
  match op with
  | .signIn net freshGuid userKey => (SignInUserKey2 ec net freshGuid userKey st).state
  | .subscribe mkES => (Subscribe2 mkES st).state
  | .unsubscribe => (Unsubscribe2 st).2
  | .createKey net randomText otp options =>
      let _ := CreateUserKey2 ec sha256 randomText net otp options
      st
  | .resetPassword phoneOk freshGuid =>
      if phoneOk then { st with deviceGuid := some (st.deviceGuid.getD freshGuid) } else st
  | .initNewKey => st
  | .getInfo => st
  | .getLoginLog => st
  | .logout => st

/-- Run a sequence of variant 2 operations from a state. -/
def runOps2 {K : Type} (ec : Eddsa K) (sha256 : String → String) (ops : List Op2)
    (st : ClientState2) : ClientState2 :=
  ops.foldl (fun s op => step2 ec sha256 op s) st

/-- Runs `n` consecutive `Subscribe` calls, each with a successfully constructed
EventSource, threaded through the state: `true` iff every call returned
`true`. -/
def subscribeChain (h : Nat) : Nat → ClientState2 → Bool
  | 0, _ => true
  | n + 1, st =>
      let out := Subscribe2 (.ok h) st
      out.ok && subscribeChain h n out.state

/-! ### Concrete instantiations of the external collaborators, used by the
closed witness and counterexample theorems below. Any pure implementation of
the collaborators would do; these are small computable stand-ins. -/

/-- A concrete pure EdDSA library instance (the claims never depend on the
mathematical content of the primitives, only on how the client composes
them). -/
def ec₀ : Eddsa Nat :=
  { keyFromSecret := fun s => s.length
    getPublic := fun k => [k % 256]
    sign := fun k ch => (k :: ch).map (fun b => b % 256) }

/-- A concrete stand-in for the external `genSha256` digest. -/
def sha₀ : String → String := fun s => "digest-" ++ s

/-- An `AuthOptions` bundle whose challenges decode to the bytes `[1,2,3]`
(`"AQID"` is base64 for `0x01 0x02 0x03`). -/
def optsA : AuthOptions :=
  { challenge := "AQID", challenge_id := "ch1", fido2_challenge := "AQID" }

/-- Sign-in network oracle: both calls succeed and the login response
carries `Set-Cookie: sid=abc123; Path=/`. -/
def netGood : SignInNet :=
  { loginOptions := .response 200 "OK" [("content-type", "application/json")]
      (.parsed { result := some optsA, error := none })
    login := .response 200 "OK" [("set-cookie", "sid=abc123; Path=/")]
      (.parsed { result := some "Success", error := none }) }

/-- Sign-in network oracle: the login call succeeds with a "Success" body
but its response carries no `set-cookie` header. -/
def netCookieMissing : SignInNet :=
  { loginOptions := .response 200 "OK" [("content-type", "application/json")]
      (.parsed { result := some optsA, error := none })
    login := .response 200 "OK" [("content-type", "application/json")]
      (.parsed { result := some "Success", error := none }) }

/-- Sign-in network oracle: the server answers the login with the explicit
`"Failure"` status. -/
def netLoginFailure : SignInNet :=
  { loginOptions := .response 200 "OK" [("content-type", "application/json")]
      (.parsed { result := some optsA, error := none })
    login := .response 200 "OK" [("content-type", "application/json")]
      (.parsed { result := some "Failure", error := none }) }

/-- Registration endpoint outcome: `{result: "Success"}`. -/
def netRegSuccess : FetchOutcome String :=
  .response 200 "OK" [] (.parsed { result := some "Success", error := none })

/-- Registration endpoint outcome: `{result: "Failure"}`. -/
def netRegFailure : FetchOutcome String :=
  .response 200 "OK" [] (.parsed { result := some "Failure", error := none })

/-- Registration endpoint outcome: a 2xx response whose `result` is the
empty string (present, not `"Failure"`, but falsy in JavaScript). -/
def netRegEmptyResult : FetchOutcome String :=
  .response 200 "OK" [] (.parsed { result := some "", error := none })

/-- A concrete stand-in for the external `JSON.parse` on the inputs the
theorems use: the JSON literals parse, anything else throws (as
`JSON.parse("oops")` does). -/
def parse₀ : String → JsResult JsVal :=
  fun s =>
    if s = "null" then .ok .vNull
    else if s = "true" then .ok (.vBool true)
    else if s = "false" then .ok (.vBool false)
    else if s = "42" then .ok (.vNum 42)
    else .thrown (.syntaxError "Unexpected token")

/-- A variant 1 client state with no active session. -/
def st1NoSession : ClientState1 := { userKey := "user-key" }

/-- A variant 1 client state with an active session and an already open
event channel. -/
def st1Open : ClientState1 :=
  { userKey := "user-key", esLink := some 4, isConnectedES := true,
    sessionId := some "abc123" }

/-! ## Theorems -/

/-- C1: a guarded call receiving HTTP 401 fires exactly one
re-authentication attempt (`Connect(true)`, not awaited), but the original
call is NOT re-issued — `response = await request` re-awaits the same
settled promise, so exactly one HTTP request is ever sent — and the value
returned is always the 401-derived status error, even when the
re-authentication succeeds. This contradicts the claim that the original
call is re-issued once with the refreshed cookie and its result returned. -/
theorem apiRequest1_401_no_reissue {T : Type} (statusText : String)
    (hdrs : List (String × String)) (body : BodyResult T) (isConnected : Bool) :
    (ApiRequest1 (.response 401 statusText hdrs body) isConnected).fetchCount = 1 ∧
    (ApiRequest1 (.response 401 statusText hdrs body) isConnected).reauthAttempts = 1 ∧
    (ApiRequest1 (.response 401 statusText hdrs body) isConnected).response.result = none ∧
    (ApiRequest1 (.response 401 statusText hdrs body) isConnected).response.error =
      some { code := none, message := "Status: " ++ toString 401 ++ ". " ++ statusText } ∧
    (ApiRequest1 (.response 401 statusText hdrs body) isConnected).isConnected = false :=
  ⟨rfl, rfl, rfl, rfl, rfl⟩

/-- C2: `SignInUserKey` run against a server whose login response body
signals success but whose response carries no `set-cookie` header throws an
uncaught `TypeError` (`loginResponse.headers['set-cookie']` is `undefined`
and `.match` is called on it) instead of returning a structured error; the
session store is left unchanged only because the assignment never runs. -/
theorem signInUserKey_missing_cookie_throws :
    (SignInUserKey2 ec₀ netCookieMissing "guid-1" "user-key" initState2).response =
      .thrown (.typeError "Cannot read properties of undefined") ∧
    (SignInUserKey2 ec₀ netCookieMissing "guid-1" "user-key" initState2).state.sessionId =
      none := by
  decide

/-- C3 counterexample: the otp `"      "` (six spaces) is blank — its
trimmed value is empty — yet `CreateUserKey` does NOT return a validation
error: because the source combines the emptiness and length checks with
`&&` and the string has length exactly 6, validation passes and the
registration network call is issued. -/
theorem createUserKey_blank_len6_otp_reaches_network :
    jsTrim "      " = "" ∧
    (CreateUserKey2 ec₀ sha₀ "rand" netRegSuccess "      " optsA).calls =
      ["auth/v1/register_key"] ∧
    (CreateUserKey2 ec₀ sha₀ "rand" netRegSuccess "      " optsA).response.error = none := by
  decide

/-- C3 amended: an otp whose trimmed value is empty AND whose length is not
6 is rejected with a validation error before any network call; every otp
with a non-empty trimmed value passes validation (so no input is ever
rejected on length alone) and reaches the registration endpoint. -/
theorem createUserKey_otp_guard {K : Type} (ec : Eddsa K) (sha256 : String → String)
    (randomText : String) (net : FetchOutcome String) (otp : String) (options : AuthOptions) :
    (jsTrim otp = "" → otp.length ≠ 6 →
      CreateUserKey2 ec sha256 randomText net otp options =
        { response := validationErrorResponse String "OTP must be not empty", calls := [] }) ∧
    (jsTrim otp ≠ "" →
      (CreateUserKey2 ec sha256 randomText net otp options).calls =
        ["auth/v1/register_key"]) := by
  constructor
  · intro h1 h2
    unfold CreateUserKey2
    rw [if_pos ⟨h1, h2⟩]
  · intro h
    have hcond : ¬(jsTrim otp = "" ∧ otp.length ≠ 6) := fun hc => h hc.1
    unfold CreateUserKey2
    rw [if_neg hcond]
    dsimp only
    split <;> rfl

/-- Witness for the C3 amended theorem: a one-space otp is rejected without
a network call; the otp "123" (non-blank) reaches the network. -/
theorem createUserKey_otp_guard_witness :
    CreateUserKey2 ec₀ sha₀ "rand" netRegSuccess " " optsA =
      { response := validationErrorResponse String "OTP must be not empty", calls := [] } ∧
    (CreateUserKey2 ec₀ sha₀ "rand" netRegSuccess "123" optsA).calls =
      ["auth/v1/register_key"] :=
  ⟨(createUserKey_otp_guard ec₀ sha₀ "rand" netRegSuccess " " optsA).1 (by decide) (by decide),
   (createUserKey_otp_guard ec₀ sha₀ "rand" netRegSuccess "123" optsA).2 (by decide)⟩

/-- C4: key derivation is deterministic — for any pure EdDSA library
instance, any non-empty secret and non-empty challenge, two runs of
`generateKeys` on the same inputs yield the same `(public_key, signature)`
pair. `generateKeys` takes no entropy parameter anywhere: it is a
composition of the library's pure operations, with no salting or
randomness. -/
theorem generateKeys_deterministic {K : Type} (ec : Eddsa K) (secret : String)
    (challenge : List Nat) (_hsec : secret ≠ "") (_hch : challenge ≠ [])
    (out₁ out₂ : KeysOut) (h₁ : out₁ = generateKeys ec secret challenge)
    (h₂ : out₂ = generateKeys ec secret challenge) : out₁ = out₂ := by
  rw [h₁, h₂]

/-- Witness for C4 at a concrete library instance, secret and challenge. -/
theorem generateKeys_deterministic_witness :
    ("user-secret" ≠ "" ∧ ([1, 2, 3] : List Nat) ≠ []) ∧
    generateKeys ec₀ "user-secret" [1, 2, 3] = generateKeys ec₀ "user-secret" [1, 2, 3] :=
  ⟨⟨by decide, by decide⟩,
   generateKeys_deterministic ec₀ "user-secret" [1, 2, 3] (by decide) (by decide) _ _ rfl rfl⟩

/-- C5: whenever the login exchange fails — the challenge fetch yields no
result, or the login response's result is absent, falsy or the literal
`"Failure"` (which covers non-2xx statuses and transport errors, since
variant 2 `ApiRequest` returns no `result` for those) — the stored
`sessionId` is left unchanged; conversely, any change of the stored
`sessionId` can only happen on a successful login exchange. -/
theorem signInUserKey_failure_preserves_session {K : Type} (ec : Eddsa K) (net : SignInNet)
    (freshGuid userKey : String) (st : ClientState2) :
    ((ApiRequest2 net.loginOptions).result = none ∨
        strTruthy (ApiRequest2 net.login).result = false ∨
        (ApiRequest2 net.login).result = some "Failure" →
      (SignInUserKey2 ec net freshGuid userKey st).state.sessionId = st.sessionId) ∧
    ((SignInUserKey2 ec net freshGuid userKey st).state.sessionId ≠ st.sessionId →
      strTruthy (ApiRequest2 net.login).result = true ∧
      (ApiRequest2 net.login).result ≠ some "Failure") := by
  have key : (SignInUserKey2 ec net freshGuid userKey st).state.sessionId = st.sessionId ∨
      ((ApiRequest2 net.loginOptions).result ≠ none ∧
        strTruthy (ApiRequest2 net.login).result = true ∧
        (ApiRequest2 net.login).result ≠ some "Failure") := by
    unfold SignInUserKey2
    by_cases h0 : jsTrim userKey = ""
    · rw [if_pos h0]; left; rfl
    · rw [if_neg h0]
      dsimp only
      cases hlor : (ApiRequest2 net.loginOptions).result with
      | none => left; rfl
      | some authOptions =>
          dsimp only
          by_cases hs : (strTruthy (ApiRequest2 net.login).result &&
              ((ApiRequest2 net.login).result != some "Failure")) = true
          · rw [if_pos hs]
            rw [Bool.and_eq_true] at hs
            right
            exact ⟨fun hc => Option.noConfusion hc, hs.1, bne_iff_ne.mp hs.2⟩
          · rw [if_neg hs]
            left; rfl
  constructor
  · intro hfail
    rcases key with hk | ⟨hlo, hs1, hs2⟩
    · exact hk
    · rcases hfail with h | h | h
      · exact absurd h hlo
      · rw [hs1] at h; cases h
      · exact absurd h hs2
  · intro hne
    rcases key with hk | ⟨_, hs1, hs2⟩
    · exact absurd hk hne
    · exact ⟨hs1, hs2⟩

/-- Witness for C5: an explicit `"Failure"` login response leaves the (empty)
session store untouched. -/
theorem signInUserKey_failure_preserves_session_witness :
    (ApiRequest2 netLoginFailure.login).result = some "Failure" ∧
    (SignInUserKey2 ec₀ netLoginFailure "guid-3" "user-key" initState2).state.sessionId =
      initState2.sessionId :=
  ⟨by decide,
   (signInUserKey_failure_preserves_session ec₀ netLoginFailure "guid-3" "user-key"
      initState2).1 (Or.inr (Or.inr (by decide)))⟩

/-- C6: a secret whose trimmed value is empty short-circuits `SignInUserKey`
to the validation error; no network call is issued (neither the challenge
fetch nor the login submission) and the client state is untouched. -/
theorem signInUserKey_blank_secret_no_network {K : Type} (ec : Eddsa K) (net : SignInNet)
    (freshGuid userKey : String) (st : ClientState2) (h : jsTrim userKey = "") :
    SignInUserKey2 ec net freshGuid userKey st =
      { response := .ok (validationErrorResponse String "User key must be not empty"),
        state := st, calls := [] } := by
  unfold SignInUserKey2
  rw [if_pos h]

/-- Witness for C6 at the blank secret `"   "`. -/
theorem signInUserKey_blank_secret_no_network_witness :
    jsTrim "   " = "" ∧
    SignInUserKey2 ec₀ netGood "guid-2" "   " initState2 =
      { response := .ok (validationErrorResponse String "User key must be not empty"),
        state := initState2, calls := [] } :=
  ⟨by decide,
   signInUserKey_blank_secret_no_network ec₀ netGood "guid-2" "   " initState2 (by decide)⟩

/-- C7 counterexample: a 2xx registration response whose `result` is the
empty string is present and differs from `"Failure"`, yet `CreateUserKey`
does not return the minted key: JavaScript truthiness makes `""` falsy, so
the raw response is returned unchanged. -/
theorem createUserKey_empty_result_no_key :
    (ApiRequest2 netRegEmptyResult).result.isSome = true ∧
    (ApiRequest2 netRegEmptyResult).result ≠ some "Failure" ∧
    (CreateUserKey2 ec₀ sha₀ "rand" netRegEmptyResult "123456" optsA).response.result ≠
      some (sha₀ "rand") ∧
    (CreateUserKey2 ec₀ sha₀ "rand" netRegEmptyResult "123456" optsA).response =
      ApiRequest2 netRegEmptyResult := by
  decide

/-- C7 amended: once validation passes, `CreateUserKey` returns the newly
minted user key (the digest of the fresh random value) exactly when the
registration response's `result` is present, non-empty (truthy) and not
`"Failure"`; otherwise the raw response is returned unchanged and — as long
as the server response does not itself contain the fresh digest — the new
key is never returned. -/
theorem createUserKey_key_exactly_on_success {K : Type} (ec : Eddsa K)
    (sha256 : String → String) (randomText : String) (net : FetchOutcome String)
    (otp : String) (options : AuthOptions)
    (hval : ¬(jsTrim otp = "" ∧ otp.length ≠ 6)) :
    (strTruthy (ApiRequest2 net).result = true ∧ (ApiRequest2 net).result ≠ some "Failure" →
      (CreateUserKey2 ec sha256 randomText net otp options).response =
        { result := some (sha256 randomText), error := none, headers := none }) ∧
    (strTruthy (ApiRequest2 net).result = false ∨ (ApiRequest2 net).result = some "Failure" →
      (CreateUserKey2 ec sha256 randomText net otp options).response = ApiRequest2 net) ∧
    ((ApiRequest2 net).result ≠ some (sha256 randomText) →
      ((CreateUserKey2 ec sha256 randomText net otp options).response.result =
          some (sha256 randomText) ↔
        strTruthy (ApiRequest2 net).result = true ∧
          (ApiRequest2 net).result ≠ some "Failure")) := by
  unfold CreateUserKey2
  rw [if_neg hval]
  dsimp only
  by_cases hb : (strTruthy (ApiRequest2 net).result &&
      ((ApiRequest2 net).result != some "Failure")) = true
  · rw [if_pos hb]
    rw [Bool.and_eq_true] at hb
    have hb2 : (ApiRequest2 net).result ≠ some "Failure" := bne_iff_ne.mp hb.2
    refine ⟨fun _ => rfl, ?_, ?_⟩
    · rintro (h | h)
      · rw [hb.1] at h; cases h
      · exact absurd h hb2
    · exact fun _ => ⟨fun _ => ⟨hb.1, hb2⟩, fun _ => rfl⟩
  · rw [if_neg hb]
    refine ⟨?_, fun _ => rfl, ?_⟩
    · rintro ⟨h1, h2⟩
      exact absurd (by rw [h1, bne_iff_ne.mpr h2]; rfl) hb
    · intro hne
      constructor
      · intro hres; exact absurd hres hne
      · rintro ⟨h1, h2⟩
        exact absurd (by rw [h1, bne_iff_ne.mpr h2]; rfl) hb

/-- Witness for the C7 amended theorem: a "Success" registration yields the
minted key; a "Failure" registration yields the raw failure response. -/
theorem createUserKey_key_exactly_on_success_witness :
    (CreateUserKey2 ec₀ sha₀ "rand" netRegSuccess "123456" optsA).response =
      { result := some (sha₀ "rand"), error := none, headers := none } ∧
    (CreateUserKey2 ec₀ sha₀ "rand" netRegFailure "123456" optsA).response =
      ApiRequest2 netRegFailure :=
  ⟨(createUserKey_key_exactly_on_success ec₀ sha₀ "rand" netRegSuccess "123456" optsA
      (by decide)).1 ⟨by decide, by decide⟩,
   (createUserKey_key_exactly_on_success ec₀ sha₀ "rand" netRegFailure "123456" optsA
      (by decide)).2.1 (Or.inr (by decide))⟩

/-- C8: variant 1 `Subscribe` refuses — returning `false`, leaving the state
unchanged and constructing no EventSource connection — both when no session
is active and when a subscription is already open. -/
theorem subscribe1_refuses_inactive_or_open (mkES : Except String Nat) (st : ClientState1) :
    (st.sessionId = none →
      Subscribe1 mkES st = { ok := false, state := st, opened := false }) ∧
    (st.isConnectedES = true →
      Subscribe1 mkES st = { ok := false, state := st, opened := false }) := by
  constructor
  · intro h; simp [Subscribe1, h]
  · intro h; simp [Subscribe1, h]

/-- Witness for C8: a sessionless state and an already-open state both make
`Subscribe` return `false` without opening a connection. -/
theorem subscribe1_refuses_inactive_or_open_witness :
    Subscribe1 (.ok 9) st1NoSession = { ok := false, state := st1NoSession, opened := false } ∧
    Subscribe1 (.ok 9) st1Open = { ok := false, state := st1Open, opened := false } :=
  ⟨(subscribe1_refuses_inactive_or_open (.ok 9) st1NoSession).1 rfl,
   (subscribe1_refuses_inactive_or_open (.ok 9) st1Open).2 rfl⟩

/-- C9 counterexample: on a payload that fails to parse (`JSON.parse`
throws), `getMessageFromEvent` hands the consumer `null` — the local
`jsonValue` initialiser — not the raw payload unchanged. -/
theorem getMessageFromEvent_parse_failure_returns_null :
    parse₀ "oops" = .thrown (.syntaxError "Unexpected token") ∧
    getMessageFromEvent parse₀ (.vStr "oops") = .vNull ∧
    JsVal.vNull ≠ JsVal.vStr "oops" := by
  decide

/-- C9 amended: the channel decoder is total (no exception propagates: the
parse failure is caught and only logged) and delivers to the consumer the
decoded value on parse success, `null` — not the raw payload — on parse
failure, and `undefined` for a non-string payload. -/
theorem getMessageFromEvent_delivery (parse : String → JsResult JsVal) (s : String)
    (m : JsVal) :
    (∀ v, parse s = .ok v → getMessageFromEvent parse (.vStr s) = v) ∧
    (∀ e, parse s = .thrown e → getMessageFromEvent parse (.vStr s) = .vNull) ∧
    ((∀ t, m ≠ .vStr t) → getMessageFromEvent parse m = .vUndefined) := by
  refine ⟨?_, ?_, ?_⟩
  · intro v hv; simp [getMessageFromEvent, hv]
  · intro e he; simp [getMessageFromEvent, he]
  · intro hm
    unfold getMessageFromEvent
    cases m with
    | vStr t => exact absurd rfl (hm t)
    | vUndefined => rfl
    | vNull => rfl
    | vBool b => rfl
    | vNum n => rfl
    | vArr es => rfl

/-- Witness for the C9 amended theorem: a decodable payload is delivered
decoded, an undecodable one as `null`, a non-string one as `undefined`. -/
theorem getMessageFromEvent_delivery_witness :
    getMessageFromEvent parse₀ (.vStr "42") = .vNum 42 ∧
    getMessageFromEvent parse₀ (.vStr "oops") = .vNull ∧
    getMessageFromEvent parse₀ (.vNum 7) = .vUndefined :=
  ⟨(getMessageFromEvent_delivery parse₀ "42" (.vNum 7)).1 (.vNum 42) (by decide),
   (getMessageFromEvent_delivery parse₀ "oops" (.vNum 7)).2.1 (.syntaxError "Unexpected token")
     (by decide),
   (getMessageFromEvent_delivery parse₀ "x" (.vNum 7)).2.2 (fun t h => nomatch h)⟩

/-- A variant 2 `Subscribe` call never changes `isConnectedES` or
`sessionId` (it writes only `esLink`). -/
theorem subscribe2_state_fields (mkES : Except String Nat) (st : ClientState2) :
    (Subscribe2 mkES st).state.isConnectedES = st.isConnectedES ∧
    (Subscribe2 mkES st).state.sessionId = st.sessionId := by
  unfold Subscribe2
  split
  · exact ⟨rfl, rfl⟩
  · cases mkES <;> exact ⟨rfl, rfl⟩

/-- A variant 2 `SignInUserKey` run never changes `isConnectedES` or
`esLink` (it writes only `sessionId` and `deviceGuid`). -/
theorem signInUserKey2_state_fields {K : Type} (ec : Eddsa K) (net : SignInNet)
    (freshGuid userKey : String) (st : ClientState2) :
    (SignInUserKey2 ec net freshGuid userKey st).state.isConnectedES = st.isConnectedES ∧
    (SignInUserKey2 ec net freshGuid userKey st).state.esLink = st.esLink := by
  unfold SignInUserKey2
  dsimp only
  repeat' split
  all_goals exact ⟨rfl, rfl⟩

/-- No variant 2 operation changes `isConnectedES`: the field is never
assigned anywhere in that client. -/
theorem step2_preserves_isConnectedES {K : Type} (ec : Eddsa K) (sha256 : String → String)
    (op : Op2) (st : ClientState2) :
    (step2 ec sha256 op st).isConnectedES = st.isConnectedES := by
  cases op with
  | signIn net freshGuid userKey =>
      exact (signInUserKey2_state_fields ec net freshGuid userKey st).1
  | subscribe mkES => exact (subscribe2_state_fields mkES st).1
  | unsubscribe =>
      show (Unsubscribe2 st).2.isConnectedES = st.isConnectedES
      unfold Unsubscribe2
      split <;> rfl
  | createKey net randomText otp options => rfl
  | resetPassword phoneOk freshGuid => cases phoneOk <;> rfl
  | initNewKey => rfl
  | getInfo => rfl
  | getLoginLog => rfl
  | logout => rfl

/-- Running any sequence of variant 2 operations preserves `isConnectedES`. -/
theorem runOps2_preserves_isConnectedES {K : Type} (ec : Eddsa K) (sha256 : String → String)
    (ops : List Op2) (st : ClientState2) :
    (runOps2 ec sha256 ops st).isConnectedES = st.isConnectedES := by
  induction ops generalizing st with
  | nil => rfl
  | cons op rest ih =>
      have hstep : runOps2 ec sha256 (op :: rest) st =
          runOps2 ec sha256 rest (step2 ec sha256 op st) := rfl
      rw [hstep, ih, step2_preserves_isConnectedES]

/-- From any state with the flag clear and a session active, every number of
consecutive `Subscribe` calls (each constructing its EventSource
successfully) returns `true`. -/
theorem subscribeChain_of_inactive (h : Nat) (n : Nat) (st : ClientState2)
    (hES : st.isConnectedES = false) (hsid : st.sessionId.isSome = true) :
    subscribeChain h n st = true := by
  induction n generalizing st with
  | zero => rfl
  | succ n ih =>
      obtain ⟨v, hv⟩ := Option.isSome_iff_exists.mp hsid
      have hcond : ¬(st.isConnectedES || st.sessionId.isNone) = true := by
        rw [hES, hv]; simp
      have hsub : Subscribe2 (.ok h) st =
          { ok := true, state := { st with esLink := some h }, opened := true } := by
        unfold Subscribe2; rw [if_neg hcond]
      show ((Subscribe2 (.ok h) st).ok &&
        subscribeChain h n (Subscribe2 (.ok h) st).state) = true
      rw [hsub]
      dsimp only
      rw [Bool.true_and]
      exact ih _ hES hsid

/-- C10: in the variant 2 client (part_000 lines 524-841) the
`isConnectedES` flag is never assigned `true` by any operation, so in every
reachable state `Unsubscribe` returns `false`, and once a session is active
`Subscribe` succeeds arbitrarily many times in a row — repeated opens are
never refused. -/
theorem client2_isConnectedES_never_true {K : Type} (ec : Eddsa K) (sha256 : String → String)
    (ops : List Op2) :
    (runOps2 ec sha256 ops initState2).isConnectedES = false ∧
    (Unsubscribe2 (runOps2 ec sha256 ops initState2)).1 = false ∧
    (∀ h n, (runOps2 ec sha256 ops initState2).sessionId.isSome = true →
      subscribeChain h n (runOps2 ec sha256 ops initState2) = true) := by
  have hES : (runOps2 ec sha256 ops initState2).isConnectedES = false :=
    runOps2_preserves_isConnectedES ec sha256 ops initState2
  refine ⟨hES, ?_, ?_⟩
  · unfold Unsubscribe2
    rw [hES]
    rfl
  · intro h n hsid
    exact subscribeChain_of_inactive h n _ hES hsid

/-- Witness for C10: after a successful sign-in (session `abc123` active),
three consecutive `Subscribe` calls all return `true` and `Unsubscribe`
still returns `false`. -/
theorem client2_isConnectedES_never_true_witness :
    (runOps2 ec₀ sha₀ [Op2.signIn netGood "guid-4" "user-key"] initState2).sessionId.isSome =
      true ∧
    subscribeChain 7 3 (runOps2 ec₀ sha₀ [Op2.signIn netGood "guid-4" "user-key"] initState2) =
      true ∧
    (Unsubscribe2 (runOps2 ec₀ sha₀ [Op2.signIn netGood "guid-4" "user-key"] initState2)).1 =
      false :=
  ⟨by decide,
   (client2_isConnectedES_never_true ec₀ sha₀ [Op2.signIn netGood "guid-4" "user-key"]).2.2 7 3
     (by decide),
   (client2_isConnectedES_never_true ec₀ sha₀ [Op2.signIn netGood "guid-4" "user-key"]).2.1⟩

end AuthProxy
